import Mathlib

/-!
Verification of the StratMaster desktop shell's core logic: the hardware
capability classifier (`get_system_info`), the primary health check
(`check_api_health`), the shared base-URL configuration (`set_api_base_url`),
and the batch service probe (`get_local_server_status`), embedded from
`src/apps/desktop/src-tauri/src/main.rs` and `src/apps/desktop/src-tauri/src/lib.rs`.

Network I/O is modelled by an oracle `Network : String → Except String HttpResponse`
giving, for each URL, either the received response (its status code and the serde
parse outcome of its body) or the transport error message. All other code is
translated directly.
-/

namespace StratMaster

/-- Health response body shape (main.rs `HealthResponse`): a status string and an
optional map of sub-service name to status string (the map modelled as an
association list). -/
structure HealthResponse where
  status : String
  services : Option (List (String × String))
deriving DecidableEq

/-- System information snapshot (main.rs `SystemInfo`). -/
structure SystemInfo where
  platform : String
  arch : String
  cpu_count : Nat
  memory_total : Nat
  has_gpu : Bool
  recommended_config : String
deriving DecidableEq

/-- Host environment as observed by `get_system_info`: OS and architecture
identifiers, logical CPU count, the outcome of the `sys_info::mem_info()` query
(total memory in KB on success, `none` on failure), and presence of the two GPU
environment variables `CUDA_VISIBLE_DEVICES` and `GPU_DEVICE`. -/
structure HostEnv where
  os : String
  arch : String
  cpu_count : Nat
  mem_info : Option Nat
  cuda_visible_devices : Bool
  gpu_device : Bool
deriving DecidableEq

deriving instance DecidableEq for Except

/-- An HTTP response as observed by the client: numeric status code, plus the
outcome of interpreting the body as a `HealthResponse` (the serde parse step). -/
structure HttpResponse where
  status : Nat
  body_json : Except String HealthResponse
deriving DecidableEq

/-- Network oracle: the outcome of `reqwest::get` at each URL. -/
abbrev Network := String → Except String HttpResponse

/-- reqwest `StatusCode::is_success`: the 2xx range. -/
def is_success (status : Nat) : Bool := 200 ≤ status && status < 300

/-- Application state (main.rs `AppState`): the mutex-guarded base URL and the
health-status map. -/
structure AppState where
  api_base_url : String
  health_status : List (String × Bool)
deriving DecidableEq

/-- The state installed by `main`'s setup hook: default base URL
`http://localhost:8080`. -/
def initial_state : AppState :=
  { api_base_url := "http://localhost:8080", health_status := [] }

/-- Tier recommendation of main.rs `get_system_info` (lines 59-65): strict
comparisons against 16e9 and 8e9 bytes. -/
def recommended_config (memory_total : Nat) (has_gpu : Bool) : String :=
  if memory_total > 16000000000 && has_gpu then "high-performance"
  else if memory_total > 8000000000 then "standard"
  else "lightweight"

/-- main.rs `get_system_info`: always returns `Ok`; a failed memory query falls
back to 8_000_000_000 bytes; a successful query reports `mem.total * 1024` (KB to
bytes, u64 arithmetic); GPU presence is the disjunction of the two environment
signals. -/
def get_system_info (env : HostEnv) : Except String SystemInfo :=
  let memory_total : Nat :=
    match env.mem_info with
    | some mem => mem * 1024 % 2 ^ 64
    | none => 8000000000
  let has_gpu := env.cuda_visible_devices || env.gpu_device
  .ok { platform := env.os, arch := env.arch, cpu_count := env.cpu_count,
        memory_total := memory_total, has_gpu := has_gpu,
        recommended_config := recommended_config memory_total has_gpu }

/-- URL targeted by `check_api_health` (main.rs lines 79-84): the default
`http://localhost:8080/healthz` when the configured base is empty, otherwise
`{base}/healthz`. -/
def health_url (base_url : String) : String :=
  if base_url = "" then "http://localhost:8080/healthz"
  else base_url ++ "/healthz"

/-- main.rs `check_api_health`: one GET at the health URL; transport failure gives
the connection error message; a non-2xx response gives the status error message
(the `Display` of the failing status code is modelled by its numeric text); a 2xx
response is parsed, with parse failure giving the parse error message. -/
def check_api_health (net : Network) (state : AppState) :
    Except String HealthResponse :=
  match net (health_url state.api_base_url) with
  | .ok response =>
    if is_success response.status then
      match response.body_json with
      | .ok health => .ok health
      | .error e => .error ("Failed to parse health response: " ++ e)
    else
      .error ("API health check failed with status: " ++ toString response.status)
  | .error e => .error ("Failed to connect to API: " ++ e)

/-- main.rs `set_api_base_url`: unconditionally overwrite the shared base URL and
return `Ok(())`. -/
def set_api_base_url (state : AppState) (url : String) :
    Except String Unit × AppState :=
  (.ok (), { state with api_base_url := url })

/-- The static service list of main.rs `get_local_server_status` (lines 193-198). -/
def services : List (String × String) :=
  [("api", "http://localhost:8080/healthz"),
   ("research-mcp", "http://localhost:8081/health"),
   ("knowledge-mcp", "http://localhost:8082/health"),
   ("router-mcp", "http://localhost:8083/health")]

/-- One probe of main.rs `get_local_server_status` (lines 201-204): `true` exactly
when a response arrives with a 2xx status, `false` on transport failure. -/
def probe (net : Network) (url : String) : Bool :=
  match net url with
  | .ok response => is_success response.status
  | .error _ => false

/-- main.rs `get_local_server_status`: probe each static service in order and
return the name-to-outcome map (a `HashMap` with distinct static keys, modelled as
an association list in insertion order); never fails. -/
def get_local_server_status (net : Network) :
    Except String (List (String × Bool)) :=
  .ok (services.map fun s => (s.1, probe net s.2))

/-- `check_all` as the spec words it: the `api` endpoint is probed at
`{base}/healthz` for the currently configured primary base URL, the three MCP
endpoints at their fixed localhost URLs. -/
def check_all_spec (net : Network) (base : String) : List (String × Bool) :=
  [("api", probe net (base ++ "/healthz")),
   ("research-mcp", probe net "http://localhost:8081/health"),
   ("knowledge-mcp", probe net "http://localhost:8082/health"),
   ("router-mcp", probe net "http://localhost:8083/health")]

/-- Classification rule as the spec words it: high-performance when memory exceeds
16e9 and a GPU is present, standard when memory exceeds 8e9, otherwise
lightweight. -/
def classify_spec (total_memory : Nat) (has_gpu : Bool) : String :=
  if total_memory > 16000000000 ∧ has_gpu = true then "high-performance"
  else if total_memory > 8000000000 then "standard"
  else "lightweight"

/-- A network on which every probe fails at the transport level. -/
def netDown : Network := fun _ => .error "connection refused"

/-- A network that answers only the default local API health URL, with a 2xx
response; every other URL is unreachable. -/
def netLocalOnly : Network := fun url =>
  if url = "http://localhost:8080/healthz" then
    .ok { status := 200, body_json := .error "empty body" }
  else .error "unreachable"

/-- A network on which every URL answers 404 with a body that does not parse as a
`HealthResponse`. -/
def net404bad : Network := fun _ =>
  .ok { status := 404, body_json := .error "bad json" }

/-- A network that answers only the URL `/healthz` (which the spec's
`{base}/healthz` rule would produce for an empty base), successfully; every other
URL is unreachable. -/
def netSlash : Network := fun url =>
  if url = "/healthz" then
    .ok { status := 200, body_json := .ok { status := "ok", services := none } }
  else .error "refused"

/-- A host environment whose memory query failed. -/
def envNoMem : HostEnv :=
  { os := "linux", arch := "x86_64", cpu_count := 8, mem_info := none,
    cuda_visible_devices := false, gpu_device := false }

/-- A host environment with a successful 4_000_000 KB memory query. -/
def envSmallMem : HostEnv :=
  { os := "linux", arch := "x86_64", cpu_count := 4, mem_info := some 4000000,
    cuda_visible_devices := false, gpu_device := false }

/- Helper lemmas about the three distinct error-message families of
`check_api_health`. -/

/-- Appending to two string literals that already differ within their common
prefix of length `n` yields distinct strings. -/
theorem append_ne_of_take_ne (p q x y : String) (n : Nat)
    (hn1 : n ≤ p.data.length) (hn2 : n ≤ q.data.length)
    (h : p.data.take n ≠ q.data.take n) : p ++ x ≠ q ++ y := by
  intro he
  apply h
  have hd := congrArg String.data he
  rw [String.data_append, String.data_append] at hd
  have ht : (p.data ++ x.data).take n = (q.data ++ y.data).take n := by rw [hd]
  rwa [List.take_append_of_le_length hn1, List.take_append_of_le_length hn2] at ht

/-- The connection-failure message never coincides with the parse-failure
message, whatever the embedded causes. -/
theorem connect_msg_ne_parse_msg (x y : String) :
    "Failed to connect to API: " ++ x ≠ "Failed to parse health response: " ++ y :=
  append_ne_of_take_ne _ _ x y 11 (by decide) (by decide) (by decide)

/-- The status-failure message never coincides with the connection-failure
message. -/
theorem status_msg_ne_connect_msg (x y : String) :
    "API health check failed with status: " ++ x ≠ "Failed to connect to API: " ++ y :=
  append_ne_of_take_ne _ _ x y 1 (by decide) (by decide) (by decide)

/-- The status-failure message never coincides with the parse-failure message. -/
theorem status_msg_ne_parse_msg (x y : String) :
    "API health check failed with status: " ++ x ≠
      "Failed to parse health response: " ++ y :=
  append_ne_of_take_ne _ _ x y 1 (by decide) (by decide) (by decide)

/-- Left cancellation for string append. -/
theorem string_append_left_cancel {p x y : String} (h : p ++ x = p ++ y) :
    x = y := by
  have hd := congrArg String.data h
  rw [String.data_append, String.data_append] at hd
  exact String.ext (List.append_cancel_left hd)

/-- C1: the tier computed by get_system_info agrees with the spec's
classification for every memory value and GPU flag, and the 16e9/8e9 boundaries
are strict: 16e9 with a GPU gives "standard", 8e9 gives "lightweight". -/
theorem C1_tier_classification (m : Nat) (g : Bool) :
    recommended_config m g = classify_spec m g ∧
    (∀ env : HostEnv, ∃ info, get_system_info env = .ok info ∧
       info.recommended_config = classify_spec info.memory_total info.has_gpu) ∧
    recommended_config 16000000000 true = "standard" ∧
    recommended_config 8000000000 true = "lightweight" ∧
    recommended_config 8000000000 false = "lightweight" := by
  refine ⟨?_, ?_, by decide, by decide, by decide⟩
  · cases g <;> simp [recommended_config, classify_spec]
  · intro env
    refine ⟨_, rfl, ?_⟩
    show recommended_config _ _ = classify_spec _ _
    cases h : env.cuda_visible_devices || env.gpu_device <;>
      simp [recommended_config, classify_spec]

/-- C1 witness: the classification agreement and both boundary values at a
concrete input. -/
theorem C1_tier_classification_witness :
    recommended_config 20000000000 true = classify_spec 20000000000 true ∧
    recommended_config 16000000000 true = "standard" ∧
    recommended_config 8000000000 true = "lightweight" := by
  have h := C1_tier_classification 20000000000 true
  exact ⟨h.1, h.2.2.1, h.2.2.2.1⟩

/-- C2 counterexample: with the base URL set to http://localhost:9999, the code's
batch check still probes the api at the fixed http://localhost:8080/healthz (so
reports true on a network where only that URL answers), while the spec's
{base}/healthz rule would probe the new base and report false. -/
theorem C2_counterexample :
    (set_api_base_url initial_state "http://localhost:9999").2.api_base_url =
      "http://localhost:9999" ∧
    get_local_server_status netLocalOnly =
      .ok [("api", true), ("research-mcp", false), ("knowledge-mcp", false),
           ("router-mcp", false)] ∧
    check_all_spec netLocalOnly "http://localhost:9999" =
      [("api", false), ("research-mcp", false), ("knowledge-mcp", false),
       ("router-mcp", false)] ∧
    get_local_server_status netLocalOnly ≠
      .ok (check_all_spec netLocalOnly "http://localhost:9999") := by
  refine ⟨rfl, by decide, by decide, by decide⟩

/-- C2 amended: the four endpoints probed by get_local_server_status are fixed at
build time — api at http://localhost:8080/healthz (the default base, regardless of
the currently configured base URL), research-mcp at localhost:8081/health,
knowledge-mcp at localhost:8082/health, router-mcp at localhost:8083/health; the
probe list coincides with the spec's table only when the configured base is the
default. -/
theorem C2_fixed_endpoints (net : Network) :
    get_local_server_status net =
      .ok [("api", probe net "http://localhost:8080/healthz"),
           ("research-mcp", probe net "http://localhost:8081/health"),
           ("knowledge-mcp", probe net "http://localhost:8082/health"),
           ("router-mcp", probe net "http://localhost:8083/health")] ∧
    get_local_server_status net =
      .ok (check_all_spec net initial_state.api_base_url) := by
  constructor
  · rfl
  · show _ = Except.ok (check_all_spec net "http://localhost:8080")
    simp [get_local_server_status, check_all_spec, services]

/-- C3: the batch check never fails, returns exactly the four configured keys in
order, an entry is true exactly when a response with a 2xx status was received,
any transport failure gives false, and when every probe is negative every entry
is false. -/
theorem C3_batch_outcomes (net : Network) :
    get_local_server_status net =
      .ok (services.map fun s => (s.1, probe net s.2)) ∧
    services.map Prod.fst =
      ["api", "research-mcp", "knowledge-mcp", "router-mcp"] ∧
    (∀ url r, net url = .ok r →
      (probe net url = true ↔ 200 ≤ r.status ∧ r.status < 300)) ∧
    (∀ url e, net url = .error e → probe net url = false) ∧
    ((∀ url, probe net url = false) →
      get_local_server_status net =
        .ok [("api", false), ("research-mcp", false), ("knowledge-mcp", false),
             ("router-mcp", false)]) := by
  refine ⟨rfl, by decide, ?_, ?_, ?_⟩
  · intro url r h
    simp [probe, h, is_success]
  · intro url e h
    simp [probe, h]
  · intro h
    simp [get_local_server_status, services, h]

/-- C3 witness: on a network where every transport attempt fails, the map has all
four keys with value false. -/
theorem C3_batch_outcomes_witness :
    get_local_server_status netDown =
      .ok [("api", false), ("research-mcp", false), ("knowledge-mcp", false),
           ("router-mcp", false)] :=
  (C3_batch_outcomes netDown).2.2.2.2 fun _ => rfl

/-- C6: set_api_base_url stores any given string unconditionally, leaves the rest
of the state (the health-status map) untouched, and always returns Ok. -/
theorem C6_set_url_unconditional (st : AppState) (url : String) :
    set_api_base_url st url =
      (.ok (), { api_base_url := url, health_status := st.health_status }) := rfl

/-- C7: get_system_info always succeeds; when the OS memory query fails, the
snapshot is still produced with the conservative 8_000_000_000-byte default (which
classifies as lightweight). -/
theorem C7_profiler_never_fails (env : HostEnv) :
    (∃ info, get_system_info env = .ok info) ∧
    (env.mem_info = none →
      get_system_info env = .ok
        { platform := env.os, arch := env.arch, cpu_count := env.cpu_count,
          memory_total := 8000000000,
          has_gpu := env.cuda_visible_devices || env.gpu_device,
          recommended_config := "lightweight" }) := by
  refine ⟨⟨_, rfl⟩, ?_⟩
  intro h
  simp only [get_system_info, h]
  cases hg : env.cuda_visible_devices || env.gpu_device <;> simp [hg] <;> decide

/-- C7 witness: a host whose memory query fails still gets a full snapshot with
the 8e9 default. -/
theorem C7_profiler_never_fails_witness :
    get_system_info envNoMem = .ok
      { platform := "linux", arch := "x86_64", cpu_count := 8,
        memory_total := 8000000000, has_gpu := false,
        recommended_config := "lightweight" } :=
  (C7_profiler_never_fails envNoMem).2 rfl

/-- The classifier only ever produces the three fixed tier names. -/
theorem recommended_config_cases (m : Nat) (g : Bool) :
    recommended_config m g = "high-performance" ∨
    recommended_config m g = "standard" ∨
    recommended_config m g = "lightweight" := by
  unfold recommended_config
  split
  · exact Or.inl rfl
  · split
    · exact Or.inr (Or.inl rfl)
    · exact Or.inr (Or.inr rfl)

/-- C8: every snapshot's recommended tier is one of exactly high-performance,
standard, lightweight — the Custom profile is never auto-derived. -/
theorem C8_tier_never_custom (env : HostEnv) (info : SystemInfo)
    (h : get_system_info env = .ok info) :
    info.recommended_config = "high-performance" ∨
    info.recommended_config = "standard" ∨
    info.recommended_config = "lightweight" := by
  simp only [get_system_info, Except.ok.injEq] at h
  subst h
  exact recommended_config_cases _ _

/-- The snapshot produced for `envSmallMem`. -/
def infoSmallMem : SystemInfo :=
  { platform := "linux", arch := "x86_64", cpu_count := 4,
    memory_total := 4096000000, has_gpu := false,
    recommended_config := "lightweight" }

/-- C8 witness: the tier of a concrete snapshot is among the three names. -/
theorem C8_tier_never_custom_witness :
    infoSmallMem.recommended_config = "high-performance" ∨
    infoSmallMem.recommended_config = "standard" ∨
    infoSmallMem.recommended_config = "lightweight" :=
  C8_tier_never_custom envSmallMem infoSmallMem (by decide)

/-- check_api_health consults the network only at the health URL derived from the
configured base. -/
theorem check_api_health_congr (net net' : Network) (st : AppState)
    (h : net (health_url st.api_base_url) = net' (health_url st.api_base_url)) :
    check_api_health net st = check_api_health net' st := by
  unfold check_api_health
  rw [h]

/-- C9: an empty configured base makes check_api_health target the built-in
default http://localhost:8080/healthz, a non-empty base b targets b ++ /healthz,
and the check consults the network only at that URL. -/
theorem C9_target_url (st : AppState) (b : String) :
    (st.api_base_url = "" →
      health_url st.api_base_url = "http://localhost:8080/healthz") ∧
    (b ≠ "" → health_url b = b ++ "/healthz") ∧
    (∀ net net' : Network,
      net (health_url st.api_base_url) = net' (health_url st.api_base_url) →
      check_api_health net st = check_api_health net' st) := by
  refine ⟨?_, ?_, fun net net' h => check_api_health_congr net net' st h⟩
  · intro h
    rw [h]
    rfl
  · intro h
    simp [health_url, h]

/-- C9 witness: both target rules at concrete bases. -/
theorem C9_target_url_witness :
    health_url "" = "http://localhost:8080/healthz" ∧
    health_url "http://x" = "http://x" ++ "/healthz" :=
  ⟨(C9_target_url ⟨"", []⟩ "http://x").1 rfl,
   (C9_target_url ⟨"", []⟩ "http://x").2.1 (by decide)⟩

/-- C10: a received non-2xx response makes check_api_health fail with the status
message, irrespective of the body's parse outcome (the body is never consulted),
and that message coincides with neither the connection-failure nor the
parse-failure message. -/
theorem C10_non_success_status (net : Network) (st : AppState)
    (r : HttpResponse) (hok : net (health_url st.api_base_url) = .ok r)
    (hfail : is_success r.status = false) :
    check_api_health net st =
      .error ("API health check failed with status: " ++ toString r.status) ∧
    (∀ (net' : Network) (b : Except String HealthResponse),
      net' (health_url st.api_base_url) = .ok { status := r.status, body_json := b } →
      check_api_health net' st =
        .error ("API health check failed with status: " ++ toString r.status)) ∧
    (∀ x, "API health check failed with status: " ++ toString r.status ≠
      "Failed to connect to API: " ++ x) ∧
    (∀ x, "API health check failed with status: " ++ toString r.status ≠
      "Failed to parse health response: " ++ x) := by
  refine ⟨?_, ?_, fun x => status_msg_ne_connect_msg _ x,
          fun x => status_msg_ne_parse_msg _ x⟩
  · unfold check_api_health
    rw [hok]
    simp [hfail]
  · intro net' b h
    unfold check_api_health
    rw [h]
    simp [hfail]

/-- C10 witness: a 404 with an unparseable body yields the status-failure
message. -/
theorem C10_non_success_status_witness :
    check_api_health net404bad initial_state =
      .error ("API health check failed with status: " ++ toString 404) :=
  (C10_non_success_status net404bad initial_state
    { status := 404, body_json := .error "bad json" } rfl rfl).1

/-- On transport failure check_api_health yields the connection-failure message. -/
theorem check_api_health_eq_conn_error (net : Network) (st : AppState) (e : String)
    (h : net (health_url st.api_base_url) = .error e) :
    check_api_health net st = .error ("Failed to connect to API: " ++ e) := by
  unfold check_api_health
  rw [h]

/-- On a received response check_api_health reduces to the status-and-parse
conditional. -/
theorem check_api_health_eq_ok (net : Network) (st : AppState) (r : HttpResponse)
    (h : net (health_url st.api_base_url) = .ok r) :
    check_api_health net st =
      (if is_success r.status = true then
        match r.body_json with
        | .ok health => .ok health
        | .error e => .error ("Failed to parse health response: " ++ e)
      else
        .error ("API health check failed with status: " ++ toString r.status)) := by
  unfold check_api_health
  rw [h]

/-- A received 2xx response with a parseable body yields that body. -/
theorem check_api_health_eq_parsed (net : Network) (st : AppState)
    (r : HttpResponse) (h : HealthResponse)
    (hok : net (health_url st.api_base_url) = .ok r)
    (hs : is_success r.status = true) (hb : r.body_json = .ok h) :
    check_api_health net st = .ok h := by
  rw [check_api_health_eq_ok net st r hok, if_pos hs, hb]

/-- A received 2xx response with an unparseable body yields the parse-failure
message. -/
theorem check_api_health_eq_parse_error (net : Network) (st : AppState)
    (r : HttpResponse) (e : String)
    (hok : net (health_url st.api_base_url) = .ok r)
    (hs : is_success r.status = true) (hb : r.body_json = .error e) :
    check_api_health net st =
      .error ("Failed to parse health response: " ++ e) := by
  rw [check_api_health_eq_ok net st r hok, if_pos hs, hb]

/-- A received non-2xx response yields the status-failure message. -/
theorem check_api_health_eq_status_error (net : Network) (st : AppState)
    (r : HttpResponse) (hok : net (health_url st.api_base_url) = .ok r)
    (hs : is_success r.status = false) :
    check_api_health net st =
      .error ("API health check failed with status: " ++ toString r.status) := by
  rw [check_api_health_eq_ok net st r hok, if_neg (by simp [hs])]

/-- C4 counterexample: on a network answering 404 with an unparseable body, the
body cannot be interpreted as the expected shape, yet the check fails with the
status message rather than the parse-failure outcome the claim prescribes. -/
theorem C4_counterexample :
    net404bad (health_url initial_state.api_base_url) =
      .ok { status := 404, body_json := .error "bad json" } ∧
    check_api_health net404bad initial_state =
      .error ("API health check failed with status: " ++ toString 404) ∧
    check_api_health net404bad initial_state ≠
      .error ("Failed to parse health response: " ++ "bad json") :=
  ⟨rfl, by decide, by decide⟩

/-- C4 amended: check_api_health fails with the connection-failure outcome exactly
when the transport fails; when a response with a 2xx success status is received
whose body cannot be parsed, it fails with the distinct parse-failure outcome; it
succeeds exactly when transport, success status, and parse all succeed, and then
the returned report is the parsed body (so its status field matches the body
exactly). -/
theorem C4_primary_check_outcomes (net : Network) (st : AppState) :
    (∀ e, net (health_url st.api_base_url) = .error e →
      check_api_health net st = .error ("Failed to connect to API: " ++ e)) ∧
    (∀ m, check_api_health net st = .error ("Failed to connect to API: " ++ m) →
      net (health_url st.api_base_url) = .error m) ∧
    (∀ r e, net (health_url st.api_base_url) = .ok r → is_success r.status = true →
      r.body_json = .error e →
      check_api_health net st = .error ("Failed to parse health response: " ++ e)) ∧
    (∀ x y, ("Failed to parse health response: " ++ x) ≠
      ("Failed to connect to API: " ++ y)) ∧
    (∀ h, check_api_health net st = .ok h ↔
      ∃ r, net (health_url st.api_base_url) = .ok r ∧ is_success r.status = true ∧
        r.body_json = .ok h) := by
  refine ⟨?_, ?_, ?_, fun x y he => connect_msg_ne_parse_msg y x he.symm, ?_⟩
  · intro e he
    exact check_api_health_eq_conn_error net st e he
  · intro m hm
    cases hnet : net (health_url st.api_base_url) with
    | error e =>
      rw [check_api_health_eq_conn_error net st e hnet] at hm
      rw [string_append_left_cancel (Except.error.inj hm)]
    | ok r =>
      exfalso
      cases hsb : is_success r.status with
      | true =>
        cases hbj : r.body_json with
        | ok hh =>
          rw [check_api_health_eq_parsed net st r hh hnet hsb hbj] at hm
          exact Except.noConfusion hm
        | error e =>
          rw [check_api_health_eq_parse_error net st r e hnet hsb hbj] at hm
          exact connect_msg_ne_parse_msg m e (Except.error.inj hm).symm
      | false =>
        rw [check_api_health_eq_status_error net st r hnet hsb] at hm
        exact status_msg_ne_connect_msg _ m (Except.error.inj hm)
  · intro r e hok hs hb
    exact check_api_health_eq_parse_error net st r e hok hs hb
  · intro h
    constructor
    · intro hc
      cases hnet : net (health_url st.api_base_url) with
      | error e =>
        rw [check_api_health_eq_conn_error net st e hnet] at hc
        exact Except.noConfusion hc
      | ok r =>
        cases hsb : is_success r.status with
        | true =>
          cases hbj : r.body_json with
          | ok hh =>
            rw [check_api_health_eq_parsed net st r hh hnet hsb hbj] at hc
            exact ⟨r, rfl, hsb, by rw [hbj, Except.ok.inj hc]⟩
          | error e =>
            rw [check_api_health_eq_parse_error net st r e hnet hsb hbj] at hc
            exact Except.noConfusion hc
        | false =>
          rw [check_api_health_eq_status_error net st r hnet hsb] at hc
          exact Except.noConfusion hc
    · rintro ⟨r, hok, hs, hb⟩
      exact check_api_health_eq_parsed net st r h hok hs hb

/-- C4 witness: on an unreachable network the check fails with the
connection-failure message. -/
theorem C4_primary_check_outcomes_witness :
    check_api_health netDown initial_state =
      .error ("Failed to connect to API: " ++ "connection refused") :=
  (C4_primary_check_outcomes netDown initial_state).1 "connection refused" rfl

/-- C5 counterexample: setting the base URL to the empty string and then checking
health does not probe {new_url}/healthz: on a network where "/healthz" answers
successfully but everything else is unreachable, the check still fails with a
connection error, because the code substitutes the built-in default for the empty
base. -/
theorem C5_counterexample :
    (set_api_base_url (set_api_base_url initial_state "http://a").2 "").2.api_base_url
      = "" ∧
    netSlash ("" ++ "/healthz") =
      .ok { status := 200, body_json := .ok { status := "ok", services := none } } ∧
    check_api_health netSlash
        (set_api_base_url (set_api_base_url initial_state "http://a").2 "").2 =
      .error ("Failed to connect to API: " ++ "refused") :=
  ⟨rfl, by decide, by decide⟩

/-- C5 amended: after two successive set_api_base_url calls the configuration
holds exactly the last-written URL and check_api_health reads only that value
(read-after-write, last-write-wins); for a non-empty last URL u2 the check probes
exactly u2 ++ "/healthz" (an empty last URL falls back to the built-in default
target). -/
theorem C5_last_write_wins (net net' : Network) (st : AppState) (u1 u2 : String) :
    (set_api_base_url (set_api_base_url st u1).2 u2).2.api_base_url = u2 ∧
    check_api_health net (set_api_base_url (set_api_base_url st u1).2 u2).2 =
      check_api_health net { api_base_url := u2, health_status := st.health_status } ∧
    (u2 ≠ "" → net (u2 ++ "/healthz") = net' (u2 ++ "/healthz") →
      check_api_health net (set_api_base_url (set_api_base_url st u1).2 u2).2 =
        check_api_health net' (set_api_base_url (set_api_base_url st u1).2 u2).2) := by
  refine ⟨rfl, rfl, ?_⟩
  intro h2 hnet
  apply check_api_health_congr
  have hu : health_url u2 = u2 ++ "/healthz" := by simp [health_url, h2]
  show net (health_url u2) = net' (health_url u2)
  rw [hu]
  exact hnet

/-- A network that answers http://b/healthz with a transport error and everything
else with a 2xx response. -/
def netPointA : Network := fun url =>
  if url = "http://b/healthz" then .error "x"
  else .ok { status := 200, body_json := .error "e" }

/-- A network on which every URL fails with the same transport error as netPointA
does at http://b/healthz. -/
def netPointB : Network := fun _ => .error "x"

/-- C5 witness: two networks agreeing at the last-written URL's health target give
the same check outcome after the two writes. -/
theorem C5_last_write_wins_witness :
    check_api_health netPointA
        (set_api_base_url (set_api_base_url initial_state "http://a").2 "http://b").2 =
      check_api_health netPointB
        (set_api_base_url (set_api_base_url initial_state "http://a").2 "http://b").2 :=
  (C5_last_write_wins netPointA netPointB initial_state "http://a" "http://b").2.2
    (by decide) (by decide)

end StratMaster
